import Mathlib

/-!
Verification development for the DSSAT MCP server (`server.py`,
`mcp_tools_utils.py`).  The three HTTP tool handlers
(`run_dssat_experiment`, `download_files_from_s3`,
`upload_and_collect_output_files`) are embedded shallowly: the local
filesystem is an explicit state, the external process and the S3 store
are oracles passed in, and every handler returns its result together
with the final filesystem state and the ordered list of side effects it
performed.
-/

namespace DssatMcp

/-! ## String helpers modelling the Python primitives used by the server -/

/-- Python `s[a:b]` on a string (non-negative indices, clamped). -/
def pySlice (s : String) (a b : Nat) : String :=
  ((s.toList.drop a).take (b - a)).asString

/-- Python `s.strip()`: drop whitespace from both ends. -/
def pyStrip (s : String) : String :=
  ((s.toList.dropWhile Char.isWhitespace).reverse.dropWhile
    Char.isWhitespace).reverse.asString

/-- Python `s[-n:]` for `n > 0`: the final `n` characters, or all of `s`
when it is shorter than `n`. -/
def pyTail (s : String) (n : Nat) : String :=
  (s.toList.drop (s.toList.length - n)).asString

/-- First character test (used for `line.startswith("@")` and for
detecting an absolute path operand). -/
def pyStartsWith (s : String) (c : Char) : Bool :=
  match s.toList with
  | a :: _ => a = c
  | [] => false

/-- Numeric value of a digit list (most significant first). -/
def digitsVal (l : List Char) : Nat :=
  l.foldl (fun a c => a * 10 + (c.toNat - 48)) 0

/-- Models Python `float(s)` on the plain decimal strings that occur in
fixed-width DSSAT output: an optional sign, then digits with an optional
fractional part (at least one digit overall).  The value is the exact
decimal rational (double rounding is outside the model, which only the
parse success or failure and the parsed magnitude matter to).  `none`
models the `ValueError` raised on the empty string or non-numeric
text.  Exponent, `inf` and `nan` spellings are outside the model. -/
def pyFloat? (s : String) : Option Rat :=
  let cs := s.toList
  let signed : Bool × List Char :=
    match cs with
    | '-' :: rest => (true, rest)
    | '+' :: rest => (false, rest)
    | _ => (false, cs)
  let intPart := signed.2.takeWhile Char.isDigit
  let rest := signed.2.dropWhile Char.isDigit
  match rest with
  | [] =>
      if intPart.isEmpty then none
      else
        let m : Int := digitsVal intPart
        some (mkRat (if signed.1 then -m else m) 1)
  | '.' :: rest2 =>
      let fracPart := rest2.takeWhile Char.isDigit
      let rest3 := rest2.dropWhile Char.isDigit
      if rest3.isEmpty && (!intPart.isEmpty || !fracPart.isEmpty) then
        let m : Int :=
          (digitsVal intPart : Int) * 10 ^ fracPart.length + digitsVal fracPart
        some (mkRat (if signed.1 then -m else m) (10 ^ fracPart.length))
      else none
  | _ => none

/-! ## Paths

An absolute filesystem path is its list of segments from the root.
`DATA_ROOT` and `DSSAT_EXE` are the fixed configuration constants of
`server.py`. -/

abbrev FsPath := List String

def DATA_ROOT : FsPath := ["home", "christos", "dssat-csm-os", "build", "bin"]

def DSSAT_EXE : String := "/home/christos/dssat-csm-os/build/bin/dscsm048"

/-- Render a path the way Python prints a `PosixPath` (used in the
`f-string` error details of the handlers). -/
def pathToString (p : FsPath) : String :=
  p.foldl (fun acc seg => acc ++ "/" ++ seg) ""

/-- Split a list of characters at every slash. -/
def splitSlash : List Char → List (List Char)
  | [] => [[]]
  | ch :: rest =>
      let r := splitSlash rest
      if ch = '/' then [] :: r
      else (ch :: r.headD []) :: r.tail

/-- The path segments of a caller-supplied string operand: `pathlib`
drops empty segments and `.` segments at construction and keeps `..`. -/
def splitSegs (s : String) : List String :=
  ((splitSlash s.toList).map List.asString).filter
    (fun t => t ≠ "" && t ≠ ".")

/-- Lexical `..` elimination, as done by `Path.resolve()` (symbolic
links are outside the model; no claim depends on them). -/
def normalizeSegs (segs : List String) : FsPath :=
  segs.foldl (fun acc seg => if seg = ".." then acc.dropLast else acc ++ [seg]) []

/-- Models `(root / folder).resolve()`: an absolute operand replaces
`root`, then `..` segments are eliminated lexically. -/
def joinResolve (root : FsPath) (folder : String) : FsPath :=
  let base := if pyStartsWith folder '/' then [] else root
  normalizeSegs (base ++ splitSegs folder)

/-- Models joining a further relative operand without `resolve()`,
as in `work_dir / args.experiment_file` and the download destination
`./{s3_file}`. -/
def joinRel (p : FsPath) (s : String) : FsPath :=
  if pyStartsWith s '/' then splitSegs s else p ++ splitSegs s

/-- Models the Python test `root in p.parents`: `root` is a proper
ancestor of `p`. -/
def inParents (root p : FsPath) : Bool :=
  root.isPrefixOf p && decide (root.length < p.length)

/-! ## Filesystem state -/

/-- The local filesystem visible to the handlers: the set of existing
directories and the existing regular files with their text lines. -/
structure FS where
  dirs : List FsPath
  files : List (FsPath × List String)
deriving DecidableEq

def FS.isDir (fs : FS) (p : FsPath) : Bool := fs.dirs.contains p

def FS.lookupFile (fs : FS) (p : FsPath) : Option (List String) :=
  fs.files.lookup p

def FS.isFile (fs : FS) (p : FsPath) : Bool := (fs.lookupFile p).isSome

def FS.addFile (fs : FS) (p : FsPath) (lines : List String) : FS :=
  { fs with files := (p, lines) :: fs.files }

/-- Every ancestor of `p`, including the root and `p` itself. -/
def ancestorsOf (p : FsPath) : List FsPath :=
  (List.range (p.length + 1)).map (fun i => p.take i)

/-- Models `work_dir.mkdir(parents=True, exist_ok=True)` succeeding:
the directory and all missing parents now exist. -/
def FS.mkdirParents (fs : FS) (p : FsPath) : FS :=
  { fs with dirs := ancestorsOf p ++ fs.dirs }

/-- `p` is inside the tree rooted at `root` (or is `root` itself). -/
def underTree (root p : FsPath) : Bool := root.isPrefixOf p

/-- Models a fully successful `shutil.rmtree(p)`. -/
def FS.removeTree (fs : FS) (p : FsPath) : FS :=
  { dirs := fs.dirs.filter (fun d => !underTree p d),
    files := fs.files.filter (fun f => !underTree p f.1) }

/-! ## Summary parsing (`_parse_summary`) -/

/-- One parsed treatment line of `SUMMARY.OUT`. -/
structure KPI where
  expt : String
  pl_date : String
  yield_kg_ha : Rat
deriving DecidableEq

/-- The dictionary `{"n_treatments": ..., "treatments": ...}` returned
by `_parse_summary`. -/
structure Summary where
  n_treatments : Nat
  treatments : List KPI
deriving DecidableEq

/-- The per-line body of the `_parse_summary` loop: header lines
(starting `@`) and blank lines are skipped via `continue`; the three
fixed-width slices are extracted and the yield is parsed as a float,
any failure being swallowed by the bare `except` (only `float` can
raise there — string slicing is total in Python). -/
def parseSummaryLine (line : String) : Option KPI :=
  if pyStartsWith line '@' || pyStrip line = "" then none
  else
    match pyFloat? (pyStrip (pySlice line 65 72)) with
    | none => none
    | some y =>
        some ⟨pyStrip (pySlice line 0 8), pyStrip (pySlice line 19 25), y⟩

/-- `_parse_summary(work_dir)` from `server.py`: `None` when
`SUMMARY.OUT` is not a file, otherwise the successfully parsed lines in
order together with their count. -/
def _parse_summary (fs : FS) (work_dir : FsPath) : Option Summary :=
  match fs.lookupFile (work_dir ++ ["SUMMARY.OUT"]) with
  | none => none
  | some lines =>
      let kpis := lines.filterMap parseSummaryLine
      some ⟨kpis.length, kpis⟩

/-! ## Results, errors, effects -/

/-- The typed error outcomes a handler can raise.  `http` models a
`fastapi.HTTPException(status_code, detail)`.  `downloadsFailed` models
the uncaught
`RuntimeError(f"One or more downloads failed: ...")` of
`download_files_from_s3`, carrying the per-key failure map that the
f-string embeds.  `validationFailed` models an uncaught pydantic
`ValidationError` from the `**payload` constructor calls. -/
inductive Err where
  | http (code : Nat) (detail : String)
  | downloadsFailed (errors : List (String × String))
  | validationFailed
deriving DecidableEq

/-- The observable side effects a handler performs, in order. -/
inductive Effect where
  | chdir (p : FsPath)
  | mkdir (p : FsPath)
  | download (key : String) (dest : FsPath)
  | procRun (cmd : List String) (cwd : FsPath)
  | zipWalk (p : FsPath)
  | s3upload (key : String)
  | rmtree (p : FsPath)
  | presign (key : String)
deriving DecidableEq

instance {ε α : Type} [DecidableEq ε] [DecidableEq α] :
    DecidableEq (Except ε α) := fun x y =>
  match x, y with
  | .ok a, .ok b =>
      if h : a = b then isTrue (by rw [h])
      else isFalse fun hc => h (Except.ok.inj hc)
  | .error a, .error b =>
      if h : a = b then isTrue (by rw [h])
      else isFalse fun hc => h (Except.error.inj hc)
  | .ok _, .error _ => isFalse fun hc => Except.noConfusion hc
  | .error _, .ok _ => isFalse fun hc => Except.noConfusion hc

/-- A handler run: its returned value or error, the filesystem it
leaves behind, and the ordered effect trace. -/
structure Out (V : Type) where
  result : Except Err V
  fs : FS
  trace : List Effect

/-! ## Typed requests and results (`mcp_tools_utils.py`) -/

structure RunArgs where
  folder : String
  experiment_file : String
deriving DecidableEq

structure RunResult where
  exit_code : Int
  stdout : String
  stderr : String
  summary : Option Summary
deriving DecidableEq

structure DownloadS3Args where
  folder : String
  experiment_file : String
  files_names_list : List String
deriving DecidableEq

structure DownloadS3ArgsResult where
  exit_code : Nat
  folder_name : String
deriving DecidableEq

structure UploadCollectOutputArgs where
  folder : String
deriving DecidableEq

structure UploadCollectOutputArgsResult where
  exit_code : Nat
  s3_presigned_url : String
deriving DecidableEq

/-! ## External oracles -/

/-- Outcome of the `subprocess.run` call, were it to be made: either
the 600-second timeout expires, or the process finishes with an exit
code, output streams, and the working tree it leaves behind (DSSAT
writes its output files, `SUMMARY.OUT` among them, into the working
directory). -/
inductive ProcResult where
  | timeout (fsAfter : FS)
  | done (returncode : Int) (stdout stderr : String) (fsAfter : FS)

/-- Outcome oracle for the S3 operations of
`upload_and_collect_output_files`: whether the upload and the presign
call fail (with the rendered error message) or succeed, the URL a
successful presign returns, and whether `shutil.rmtree` manages to
delete the whole tree.  `rmtree` is called with `ignore_errors=True`,
so a failed deletion raises nothing; we model the failing case as
leaving the tree in place. -/
structure S3Env where
  uploadErr : Option String
  presignErr : Option String
  presignUrl : String
  rmtreeOk : Bool
deriving DecidableEq

/-! ## `run_dssat_experiment` (server.py lines 313-364), after payload
validation -/

def run_core (args : RunArgs) (fs : FS) (proc : ProcResult) : Out RunResult :=
  let work_dir := joinResolve DATA_ROOT args.folder
  if !fs.isDir work_dir || !inParents DATA_ROOT work_dir then
    ⟨.error (.http 400 "Invalid folder"), fs, []⟩
  else
    -- os.chdir(work_dir) succeeds: work_dir was just checked to be a
    -- directory (its failure branches are unreachable single-request)
    let exp_file := joinRel work_dir args.experiment_file
    if !fs.isFile exp_file then
      ⟨.error (.http 400 "Experiment file not found"), fs, [.chdir work_dir]⟩
    else
      let cmd := [DSSAT_EXE, "A", args.experiment_file]
      match proc with
      | .timeout fsAfter =>
          ⟨.error (.http 504 "DSSAT run timed out"), fsAfter,
            [.chdir work_dir, .procRun cmd work_dir]⟩
      | .done rc out err fsAfter =>
          ⟨.ok ⟨rc, pyTail out 10000, pyTail err 10000,
              _parse_summary fsAfter work_dir⟩, fsAfter,
            [.chdir work_dir, .procRun cmd work_dir]⟩

/-! ## `download_files_from_s3` (server.py lines 226-311), after
payload validation -/

/-- Python `errors[k] = v`: update the value when the key is present,
otherwise append the new binding. -/
def dictInsert (d : List (String × String)) (k v : String) :
    List (String × String) :=
  if (d.lookup k).isSome then
    d.map (fun p => if p.1 = k then (k, v) else p)
  else d ++ [(k, v)]

/-- The download loop: every key is attempted; a failure records its
reason under the key, a success writes the file into the working
directory.  `dl key = none` means the S3 download of `key` succeeds
(with unmodelled content), `some reason` its rendered failure message. -/
def dlLoop (dl : String → Option String) (work_dir : FsPath) :
    List String → FS → List (String × String) →
    FS × List (String × String) × List Effect
  | [], fs, errs => (fs, errs, [])
  | k :: ks, fs, errs =>
      let next : FS × List (String × String) :=
        match dl k with
        | none => (fs.addFile (joinRel work_dir k) [], errs)
        | some reason => (fs, dictInsert errs k reason)
      let rest := dlLoop dl work_dir ks next.1 next.2
      ⟨rest.1, rest.2.1, .download k (joinRel work_dir k) :: rest.2.2⟩

def download_core (args : DownloadS3Args) (fs : FS)
    (dl : String → Option String) : Out DownloadS3ArgsResult :=
  let work_dir := joinResolve DATA_ROOT args.folder
  if !inParents DATA_ROOT work_dir then
    ⟨.error (.http 400 "Invalid folder (outside DATA_ROOT)"), fs, []⟩
  else if fs.isFile work_dir then
    -- work_dir.mkdir raises OSError when a regular file occupies the
    -- path (the Python detail quotes the path; the quotes are elided)
    ⟨.error (.http 500
        ("Failed to create directory " ++ pathToString work_dir)), fs, []⟩
  else
    let fs1 := fs.mkdirParents work_dir
    -- os.chdir(work_dir) now succeeds: the directory was just created
    let loop := dlLoop dl work_dir args.files_names_list fs1 []
    let tr := [Effect.mkdir work_dir, Effect.chdir work_dir] ++ loop.2.2
    if loop.2.1 ≠ [] then
      ⟨.error (.downloadsFailed loop.2.1), loop.1, tr⟩
    else
      let exp_file := joinRel work_dir args.experiment_file
      if !(loop.1).isFile exp_file then
        ⟨.error (.http 400 "Experiment file not found"), loop.1, tr⟩
      else
        ⟨.ok ⟨200, args.folder⟩, loop.1, tr⟩

/-! ## `upload_and_collect_output_files` (server.py lines 110-224),
after payload validation.  Note: unlike the other two handlers, this
one performs no `DATA_ROOT`-confinement check at all — `os.chdir` is
the only gate, so any resolved path that exists as a directory is
accepted. -/

def upload_core (args : UploadCollectOutputArgs) (fs : FS) (env : S3Env) :
    Out UploadCollectOutputArgsResult :=
  let work_dir := joinResolve DATA_ROOT args.folder
  if !fs.isDir work_dir then
    -- os.chdir raises FileNotFoundError; the detail is
    -- f"{work_dir} not found"
    ⟨.error (.http 404 (pathToString work_dir ++ " not found")), fs, []⟩
  else
    let key := args.folder ++ ".zip"
    -- the in-memory ZIP walk reads the tree and cannot fail here
    match env.uploadErr with
    | some msg =>
        ⟨.error (.http 500 ("Failed to upload ZIP to S3: " ++ msg)), fs,
          [.chdir work_dir, .zipWalk work_dir, .s3upload key]⟩
    | none =>
        -- shutil.rmtree(work_dir, ignore_errors=True): never raises,
        -- so the surrounding except-branch is dead code; on failure
        -- the tree (or part of it) remains
        let fs2 := if env.rmtreeOk then fs.removeTree work_dir else fs
        let tr2 := [Effect.chdir work_dir, Effect.zipWalk work_dir,
          Effect.s3upload key, Effect.rmtree work_dir]
        match env.presignErr with
        | some msg =>
            ⟨.error (.http 500 ("Failed to generate presigned URL: " ++ msg)),
              fs2, tr2⟩
        | none =>
            ⟨.ok ⟨200, env.presignUrl⟩, fs2, tr2 ++ [.presign key]⟩

/-! ## Payload dispatch

Each handler receives a JSON object (`payload: Dict[str, Any]`) and
accepts either the flat argument fields at the top level or the same
object nested under `"args"`; any other shape is a 400.  JSON values
are modelled by `PyVal`; an object is an association list with unique
keys (Python dict). -/

inductive PyVal where
  | str (s : String)
  | strList (l : List String)
  | dict (d : List (String × PyVal))

abbrev Payload := List (String × PyVal)

def getStr (d : Payload) (k : String) : Option String :=
  match d.lookup k with
  | some (PyVal.str s) => some s
  | _ => none

/-- `RunArgs(**d)`: pydantic requires both string fields (extra keys
are ignored; non-string values fail validation). -/
def runArgsOfDict (d : Payload) : Option RunArgs :=
  match getStr d "folder", getStr d "experiment_file" with
  | some f, some e => some ⟨f, e⟩
  | _, _ => none

/-- `DownloadS3Args(**d)`.  The `files_names_list` field validator also
coerces a JSON-encoded string into a list; that coercion (json.loads)
is outside the model, which accepts only an actual list. -/
def downloadArgsOfDict (d : Payload) : Option DownloadS3Args :=
  match getStr d "folder", getStr d "experiment_file", d.lookup "files_names_list" with
  | some f, some e, some (PyVal.strList l) => some ⟨f, e, l⟩
  | _, _, _ => none

/-- `UploadCollectOutputArgs(**d)`. -/
def uploadArgsOfDict (d : Payload) : Option UploadCollectOutputArgs :=
  match getStr d "folder" with
  | some f => some ⟨f⟩
  | none => none

/-- The payload dispatch of `run_dssat_experiment`: flat when both
required keys are present, wrapped when `"args"` is, else 400. -/
def parseRunPayload (payload : Payload) : Except Err RunArgs :=
  if (payload.lookup "folder").isSome && (payload.lookup "experiment_file").isSome then
    match runArgsOfDict payload with
    | some a => .ok a
    | none => .error .validationFailed
  else
    match payload.lookup "args" with
    | some (PyVal.dict d) =>
        (match runArgsOfDict d with
         | some a => .ok a
         | none => .error .validationFailed)
    | some _ => .error .validationFailed
    | none => .error (.http 400 "Expected keys: folder & experiment_file")

/-- The payload dispatch of `download_files_from_s3`. -/
def parseDownloadPayload (payload : Payload) : Except Err DownloadS3Args :=
  if (payload.lookup "folder").isSome && (payload.lookup "experiment_file").isSome
      && (payload.lookup "files_names_list").isSome then
    match downloadArgsOfDict payload with
    | some a => .ok a
    | none => .error .validationFailed
  else
    match payload.lookup "args" with
    | some (PyVal.dict d) =>
        (match downloadArgsOfDict d with
         | some a => .ok a
         | none => .error .validationFailed)
    | some _ => .error .validationFailed
    | none =>
        .error (.http 400 "Expected keys: folder & experiment_file & files_names_list")

/-- The payload dispatch of `upload_and_collect_output_files`. -/
def parseUploadPayload (payload : Payload) : Except Err UploadCollectOutputArgs :=
  if (payload.lookup "folder").isSome then
    match uploadArgsOfDict payload with
    | some a => .ok a
    | none => .error .validationFailed
  else
    match payload.lookup "args" with
    | some (PyVal.dict d) =>
        (match uploadArgsOfDict d with
         | some a => .ok a
         | none => .error .validationFailed)
    | some _ => .error .validationFailed
    | none => .error (.http 400 "Expected keys: folder")

/-! ## The three complete handlers -/

def run_dssat_experiment (payload : Payload) (fs : FS) (proc : ProcResult) :
    Out RunResult :=
  match parseRunPayload payload with
  | .error e => ⟨.error e, fs, []⟩
  | .ok a => run_core a fs proc

def download_files_from_s3 (payload : Payload) (fs : FS)
    (dl : String → Option String) : Out DownloadS3ArgsResult :=
  match parseDownloadPayload payload with
  | .error e => ⟨.error e, fs, []⟩
  | .ok a => download_core a fs dl

def upload_and_collect_output_files (payload : Payload) (fs : FS)
    (env : S3Env) : Out UploadCollectOutputArgsResult :=
  match parseUploadPayload payload with
  | .error e => ⟨.error e, fs, []⟩
  | .ok a => upload_core a fs env

/-- A typed run request rendered as a flat payload. -/
def flatRun (a : RunArgs) : Payload :=
  [("folder", .str a.folder), ("experiment_file", .str a.experiment_file)]

/-- The same request nested under the `"args"` wrapper. -/
def wrapRun (a : RunArgs) : Payload := [("args", .dict (flatRun a))]

def flatDownload (a : DownloadS3Args) : Payload :=
  [("folder", .str a.folder), ("experiment_file", .str a.experiment_file),
   ("files_names_list", .strList a.files_names_list)]

def wrapDownload (a : DownloadS3Args) : Payload :=
  [("args", .dict (flatDownload a))]

def flatUpload (a : UploadCollectOutputArgs) : Payload :=
  [("folder", .str a.folder)]

def wrapUpload (a : UploadCollectOutputArgs) : Payload :=
  [("args", .dict (flatUpload a))]

/-! ## Concrete fixtures used by the witnesses and counterexamples -/

def pad (n : Nat) : String := (List.replicate n ' ').asString

/-- A well-formed `SUMMARY.OUT` data line: experiment code in columns
0-8, date token in columns 19-25, numeric yield in columns 65-72. -/
def goodLine : String := "WHPI0101" ++ pad 11 ++ " 81150" ++ pad 40 ++ "  5234."

/-- A malformed data line: the yield field is not numeric. -/
def badLine : String := "WHPI0102" ++ pad 11 ++ " 81151" ++ pad 40 ++ "    N/A"

/-- A header line, marked by `@` in column 0. -/
def headerLine : String := "@RUNNO  EXPT" ++ pad 60

def wheatDir : FsPath := DATA_ROOT ++ ["Wheat"]

/-- The `Wheat` project folder holding only a `SUMMARY.OUT`. -/
def fsWheatSummary : FS :=
  ⟨[wheatDir], [(wheatDir ++ ["SUMMARY.OUT"], [headerLine, goodLine, badLine])]⟩

/-- The `Wheat` project folder holding only the experiment file. -/
def fsWheatExp : FS := ⟨[wheatDir], [(wheatDir ++ ["SWSW7501.WHX"], [])]⟩

def envOk : S3Env := ⟨none, none, "https://s3.example/url", true⟩

def envRmFail : S3Env := ⟨none, none, "https://s3.example/url", false⟩

def envUpFail : S3Env := ⟨some "connection reset", none, "https://s3.example/url", true⟩

/-! ## Claims about `run_dssat_experiment` -/

/-- C2: a run request whose resolved folder passes the folder check but
does not contain the named experiment file fails with the 400
"Experiment file not found" error; the external process is never
spawned — the only effect performed is the `os.chdir` — and the
filesystem is left untouched. -/
theorem run_missing_experiment_file (args : RunArgs) (fs : FS) (proc : ProcResult)
    (hdir : fs.isDir (joinResolve DATA_ROOT args.folder) = true)
    (hroot : inParents DATA_ROOT (joinResolve DATA_ROOT args.folder) = true)
    (hexp : fs.isFile (joinRel (joinResolve DATA_ROOT args.folder)
      args.experiment_file) = false) :
    (run_core args fs proc).result = .error (.http 400 "Experiment file not found") ∧
    (run_core args fs proc).trace = [Effect.chdir (joinResolve DATA_ROOT args.folder)] ∧
    (run_core args fs proc).fs = fs := by
  unfold run_core
  simp [hdir, hroot, hexp]

theorem run_missing_experiment_file_witness :
    (run_core ⟨"Wheat", "SWSW7501.WHX"⟩ fsWheatSummary
        (.done 0 "" "" fsWheatSummary)).result =
      .error (.http 400 "Experiment file not found") ∧
    (run_core ⟨"Wheat", "SWSW7501.WHX"⟩ fsWheatSummary
        (.done 0 "" "" fsWheatSummary)).trace =
      [Effect.chdir (joinResolve DATA_ROOT "Wheat")] ∧
    (run_core ⟨"Wheat", "SWSW7501.WHX"⟩ fsWheatSummary
        (.done 0 "" "" fsWheatSummary)).fs = fsWheatSummary :=
  run_missing_experiment_file ⟨"Wheat", "SWSW7501.WHX"⟩ fsWheatSummary
    (.done 0 "" "" fsWheatSummary) (by decide) (by decide) (by decide)

/-- C3: when the external process exceeds the 600-second budget,
`subprocess.TimeoutExpired` is mapped to the 504 error and the handler
returns no `ProcessOutcome` value at all for that invocation. -/
theorem run_timeout_no_partial_outcome (args : RunArgs) (fs fsAfter : FS)
    (hdir : fs.isDir (joinResolve DATA_ROOT args.folder) = true)
    (hroot : inParents DATA_ROOT (joinResolve DATA_ROOT args.folder) = true)
    (hexp : fs.isFile (joinRel (joinResolve DATA_ROOT args.folder)
      args.experiment_file) = true) :
    (run_core args fs (.timeout fsAfter)).result =
      .error (.http 504 "DSSAT run timed out") ∧
    (run_core args fs (.timeout fsAfter)).result.toBool = false := by
  unfold run_core
  simp [hdir, hroot, hexp, Except.toBool]

theorem run_timeout_no_partial_outcome_witness :
    (run_core ⟨"Wheat", "SWSW7501.WHX"⟩ fsWheatExp (.timeout fsWheatExp)).result =
      .error (.http 504 "DSSAT run timed out") ∧
    (run_core ⟨"Wheat", "SWSW7501.WHX"⟩ fsWheatExp
        (.timeout fsWheatExp)).result.toBool = false :=
  run_timeout_no_partial_outcome ⟨"Wheat", "SWSW7501.WHX"⟩ fsWheatExp fsWheatExp
    (by decide) (by decide) (by decide)

/-- C4: a process that completes within the timeout yields a
`ProcessOutcome` envelope whatever its exit code: the result carries
the exit code verbatim, the stdout and stderr tails, and the parsed
summary.  The tails keep exactly the final 10000 characters — the
suffix, not the head — and the whole stream when it is shorter. -/
theorem run_outcome_truncates_tails (args : RunArgs) (fs fsAfter : FS)
    (rc : Int) (out err : String)
    (hdir : fs.isDir (joinResolve DATA_ROOT args.folder) = true)
    (hroot : inParents DATA_ROOT (joinResolve DATA_ROOT args.folder) = true)
    (hexp : fs.isFile (joinRel (joinResolve DATA_ROOT args.folder)
      args.experiment_file) = true) :
    (run_core args fs (.done rc out err fsAfter)).result =
      .ok ⟨rc, pyTail out 10000, pyTail err 10000,
        _parse_summary fsAfter (joinResolve DATA_ROOT args.folder)⟩ ∧
    (pyTail out 10000).toList = out.toList.drop (out.toList.length - 10000) ∧
    (pyTail out 10000).length = min out.length 10000 ∧
    (pyTail err 10000).toList = err.toList.drop (err.toList.length - 10000) ∧
    (pyTail err 10000).length = min err.length 10000 := by
  have hlen : ∀ l : List Char, (l.asString).length = l.length := fun _ => rfl
  refine ⟨?_, ?_, ?_, ?_, ?_⟩
  · unfold run_core
    simp [hdir, hroot, hexp]
  · unfold pyTail
    exact List.toList_asString _
  · unfold pyTail
    rw [hlen, List.length_drop]
    have h2 : out.toList.length = out.length := rfl
    omega
  · unfold pyTail
    exact List.toList_asString _
  · unfold pyTail
    rw [hlen, List.length_drop]
    have h2 : err.toList.length = err.length := rfl
    omega

theorem run_outcome_truncates_tails_witness :
    (run_core ⟨"Wheat", "SWSW7501.WHX"⟩ fsWheatExp
        (.done 7 "abc" "xyz" fsWheatExp)).result =
      .ok ⟨7, pyTail "abc" 10000, pyTail "xyz" 10000,
        _parse_summary fsWheatExp (joinResolve DATA_ROOT "Wheat")⟩ ∧
    (pyTail "abc" 10000).toList = "abc".toList.drop ("abc".toList.length - 10000) ∧
    (pyTail "abc" 10000).length = min "abc".length 10000 ∧
    (pyTail "xyz" 10000).toList = "xyz".toList.drop ("xyz".toList.length - 10000) ∧
    (pyTail "xyz" 10000).length = min "xyz".length 10000 :=
  run_outcome_truncates_tails ⟨"Wheat", "SWSW7501.WHX"⟩ fsWheatExp fsWheatExp
    7 "abc" "xyz" (by decide) (by decide) (by decide)

/-! ## Claims about `_parse_summary` -/

/-- C5: the summary parser returns `None` (not an error) when
`SUMMARY.OUT` is not a file; otherwise it produces a report whose
records are exactly the successfully parsed lines in their original
order and whose count equals their number.  Per line: header-marker and
blank lines are skipped, a line whose yield slice does not parse as a
float is silently skipped, and a parsed line yields the stripped
column slices 0-8, 19-25 and the float of 65-72.  The parser is a
total function — it can never raise. -/
theorem parse_summary_behavior (fs0 : FS) (wd0 : FsPath) (fs : FS) (wd : FsPath)
    (lines : List String) (lSkip lBad lGood : String) (y : Rat)
    (hnone : fs0.isFile (wd0 ++ ["SUMMARY.OUT"]) = false)
    (hsome : fs.lookupFile (wd ++ ["SUMMARY.OUT"]) = some lines)
    (hskip : pyStartsWith lSkip '@' = true ∨ pyStrip lSkip = "")
    (hbad1 : pyStartsWith lBad '@' = false) (hbad2 : pyStrip lBad ≠ "")
    (hbad3 : pyFloat? (pyStrip (pySlice lBad 65 72)) = none)
    (hgood1 : pyStartsWith lGood '@' = false) (hgood2 : pyStrip lGood ≠ "")
    (hgood3 : pyFloat? (pyStrip (pySlice lGood 65 72)) = some y) :
    _parse_summary fs0 wd0 = none ∧
    _parse_summary fs wd = some ⟨(lines.filterMap parseSummaryLine).length,
      lines.filterMap parseSummaryLine⟩ ∧
    parseSummaryLine lSkip = none ∧
    parseSummaryLine lBad = none ∧
    parseSummaryLine lGood =
      some ⟨pyStrip (pySlice lGood 0 8), pyStrip (pySlice lGood 19 25), y⟩ := by
  refine ⟨?_, ?_, ?_, ?_, ?_⟩
  · unfold _parse_summary
    unfold FS.isFile at hnone
    cases h : fs0.lookupFile (wd0 ++ ["SUMMARY.OUT"]) with
    | none => rfl
    | some l => rw [h] at hnone; simp at hnone
  · unfold _parse_summary
    rw [hsome]
  · unfold parseSummaryLine
    rcases hskip with h | h <;> simp [h]
  · unfold parseSummaryLine
    simp [hbad1, hbad2, hbad3]
  · unfold parseSummaryLine
    simp [hgood1, hgood2, hgood3]

theorem parse_summary_behavior_witness :
    (_parse_summary (⟨[], []⟩ : FS) wheatDir = none ∧
     _parse_summary fsWheatSummary wheatDir =
       some ⟨([headerLine, goodLine, badLine].filterMap parseSummaryLine).length,
         [headerLine, goodLine, badLine].filterMap parseSummaryLine⟩ ∧
     parseSummaryLine headerLine = none ∧
     parseSummaryLine badLine = none ∧
     parseSummaryLine goodLine =
       some ⟨pyStrip (pySlice goodLine 0 8), pyStrip (pySlice goodLine 19 25),
         (5234 : Rat)⟩) ∧
    _parse_summary fsWheatSummary wheatDir =
      some ⟨1, [⟨"WHPI0101", "81150", (5234 : Rat)⟩]⟩ :=
  ⟨parse_summary_behavior ⟨[], []⟩ wheatDir fsWheatSummary wheatDir
      [headerLine, goodLine, badLine] headerLine badLine goodLine 5234
      (by decide) (by decide) (Or.inl (by decide)) (by decide) (by decide)
      (by decide) (by decide) (by decide) (by decide),
    by decide⟩

/-! ## Claims about `download_files_from_s3` -/

/-- The object keys a trace attempted to download, in order. -/
def dlKeys (tr : List Effect) : List String :=
  tr.filterMap (fun e => match e with | .download k _ => some k | _ => none)

theorem dlLoop_trace (dl : String → Option String) (wd : FsPath)
    (ks : List String) (fs : FS) (errs : List (String × String)) :
    (dlLoop dl wd ks fs errs).2.2 =
      ks.map (fun k => Effect.download k (joinRel wd k)) := by
  induction ks generalizing fs errs with
  | nil => rfl
  | cons k ks ih =>
      unfold dlLoop
      cases dl k <;> simp [ih]

theorem dlLoop_dirs (dl : String → Option String) (wd : FsPath)
    (ks : List String) (fs : FS) (errs : List (String × String)) :
    (dlLoop dl wd ks fs errs).1.dirs = fs.dirs := by
  induction ks generalizing fs errs with
  | nil => rfl
  | cons k ks ih =>
      unfold dlLoop
      cases dl k <;> simp [ih, FS.addFile]

theorem dlLoop_isFile_mono (dl : String → Option String) (wd : FsPath)
    (ks : List String) (fs : FS) (errs : List (String × String)) (p : FsPath)
    (hp : fs.isFile p = true) :
    (dlLoop dl wd ks fs errs).1.isFile p = true := by
  induction ks generalizing fs errs with
  | nil => exact hp
  | cons k ks ih =>
      unfold dlLoop
      cases h : dl k with
      | none =>
          dsimp only
          apply ih
          unfold FS.isFile FS.lookupFile at hp ⊢
          unfold FS.addFile
          dsimp only
          rw [List.lookup_cons]
          split
          · rfl
          · exact hp
      | some r => exact ih _ _ hp

theorem dlLoop_success_file (dl : String → Option String) (wd : FsPath)
    (ks : List String) (fs : FS) (errs : List (String × String)) (k0 : String)
    (hk0 : k0 ∈ ks) (hsucc : dl k0 = none) :
    (dlLoop dl wd ks fs errs).1.isFile (joinRel wd k0) = true := by
  induction ks generalizing fs errs with
  | nil => cases hk0
  | cons k ks ih =>
      rcases List.mem_cons.mp hk0 with rfl | hmem
      · unfold dlLoop
        rw [hsucc]
        dsimp only
        apply dlLoop_isFile_mono
        unfold FS.isFile FS.lookupFile FS.addFile
        dsimp only
        rw [List.lookup_cons_self]
        rfl
      · unfold dlLoop
        cases dl k <;> dsimp only <;> exact ih _ _ hmem

theorem dictInsert_of_lookup_none (d : List (String × String)) (k v : String)
    (h : d.lookup k = none) : dictInsert d k v = d ++ [(k, v)] := by
  unfold dictInsert
  rw [h]
  rfl

theorem dlLoop_errs (dl : String → Option String) (wd : FsPath)
    (ks : List String) (fs : FS) (errs : List (String × String))
    (hnd : ks.Nodup) (hdisj : ∀ k ∈ ks, errs.lookup k = none) :
    (dlLoop dl wd ks fs errs).2.1 =
      errs ++ ks.filterMap (fun k => (dl k).map (fun r => (k, r))) := by
  induction ks generalizing fs errs with
  | nil => simp [dlLoop]
  | cons k ks ih =>
      unfold dlLoop
      cases h : dl k with
      | none =>
          dsimp only
          rw [ih _ _ (List.Nodup.of_cons hnd)
            (fun k2 hk2 => hdisj k2 (List.mem_cons_of_mem _ hk2))]
          simp [h]
      | some r =>
          dsimp only
          rw [dictInsert_of_lookup_none _ _ _ (hdisj k (List.mem_cons_self _ _))]
          rw [ih _ _ (List.Nodup.of_cons hnd)]
          · simp [h]
          · intro k2 hk2
            rw [List.lookup_append, hdisj k2 (List.mem_cons_of_mem _ hk2)]
            have hne : k2 ≠ k := by
              intro heq
              subst heq
              exact (List.nodup_cons.mp hnd).1 hk2
            have hbeq : (k2 == k) = false := by simp [hne]
            simp [List.lookup_cons, hbeq]

/-- Shape of a `download_files_from_s3` run that passes the folder
guard and whose `mkdir` succeeds. -/
theorem download_core_unfold (args : DownloadS3Args) (fs : FS)
    (dl : String → Option String)
    (hroot : inParents DATA_ROOT (joinResolve DATA_ROOT args.folder) = true)
    (hnof : fs.isFile (joinResolve DATA_ROOT args.folder) = false) :
    download_core args fs dl =
      (let wd := joinResolve DATA_ROOT args.folder
       let loop := dlLoop dl wd args.files_names_list (fs.mkdirParents wd) []
       let tr := [Effect.mkdir wd, Effect.chdir wd] ++ loop.2.2
       if loop.2.1 ≠ [] then
         ⟨.error (.downloadsFailed loop.2.1), loop.1, tr⟩
       else if !(loop.1).isFile (joinRel wd args.experiment_file) then
         ⟨.error (.http 400 "Experiment file not found"), loop.1, tr⟩
       else ⟨.ok ⟨200, args.folder⟩, loop.1, tr⟩) := by
  simp [download_core, hroot, hnof]

/-- C6: the download loop attempts every named key in order — it never
aborts early — and when at least one key fails the handler reports the
partial failure carrying the complete per-key reason map: exactly the
failed keys, in order, and none of the successful ones. -/
theorem download_attempts_all_reports_failed (args : DownloadS3Args)
    (fs : FS) (dl : String → Option String) (k0 r0 : String)
    (hroot : inParents DATA_ROOT (joinResolve DATA_ROOT args.folder) = true)
    (hnof : fs.isFile (joinResolve DATA_ROOT args.folder) = false)
    (hnd : args.files_names_list.Nodup)
    (hk0 : k0 ∈ args.files_names_list)
    (hfail : dl k0 = some r0) :
    dlKeys (download_core args fs dl).trace = args.files_names_list ∧
    (download_core args fs dl).result = .error (.downloadsFailed
      (args.files_names_list.filterMap
        (fun k => (dl k).map (fun r => (k, r))))) := by
  have herrs := dlLoop_errs dl (joinResolve DATA_ROOT args.folder)
    args.files_names_list (fs.mkdirParents (joinResolve DATA_ROOT args.folder))
    [] hnd (fun _ _ => rfl)
  have htr := dlLoop_trace dl (joinResolve DATA_ROOT args.folder)
    args.files_names_list (fs.mkdirParents (joinResolve DATA_ROOT args.folder)) []
  have hne : args.files_names_list.filterMap
      (fun k => (dl k).map (fun r => (k, r))) ≠ [] := by
    apply List.ne_nil_of_mem (a := (k0, r0))
    exact List.mem_filterMap.mpr ⟨k0, hk0, by rw [hfail]; rfl⟩
  rw [download_core_unfold args fs dl hroot hnof]
  dsimp only
  rw [herrs]
  simp only [List.nil_append]
  rw [if_pos hne]
  refine ⟨?_, rfl⟩
  dsimp only
  unfold dlKeys
  rw [htr]
  simp only [List.filterMap_cons, List.filterMap_append]
  rw [List.filterMap_map]
  have hcomp : ((fun e => match e with
        | Effect.download k _ => some k
        | _ => none) ∘
      (fun k => Effect.download k (joinRel (joinResolve DATA_ROOT args.folder) k)))
      = some := by
    funext k
    rfl
  rw [hcomp, List.filterMap_some]
  rfl

theorem download_attempts_all_reports_failed_witness :
    dlKeys (download_core ⟨"Maize", "C.MZX", ["A.SOL", "B.WTH", "C.MZX"]⟩
        (⟨[], []⟩ : FS)
        (fun k => if k = "B.WTH" then some "NoSuchKey" else none)).trace =
      ["A.SOL", "B.WTH", "C.MZX"] ∧
    (download_core ⟨"Maize", "C.MZX", ["A.SOL", "B.WTH", "C.MZX"]⟩
        (⟨[], []⟩ : FS)
        (fun k => if k = "B.WTH" then some "NoSuchKey" else none)).result =
      .error (.downloadsFailed (["A.SOL", "B.WTH", "C.MZX"].filterMap
        (fun k => ((fun k => if k = "B.WTH" then some "NoSuchKey" else none) k).map
          (fun r => (k, r))))) :=
  download_attempts_all_reports_failed ⟨"Maize", "C.MZX", ["A.SOL", "B.WTH", "C.MZX"]⟩
    ⟨[], []⟩ (fun k => if k = "B.WTH" then some "NoSuchKey" else none)
    "B.WTH" "NoSuchKey" (by decide) (by decide) (by decide) (by decide) (by decide)

theorem mem_ancestorsOf_take (p : FsPath) (i : Nat) : p.take i ∈ ancestorsOf p := by
  unfold ancestorsOf
  rcases le_or_lt i p.length with h | h
  · exact List.mem_map.mpr ⟨i, List.mem_range.mpr (by omega), rfl⟩
  · refine List.mem_map.mpr ⟨p.length, List.mem_range.mpr (by omega), ?_⟩
    rw [List.take_length]
    exact (List.take_of_length_le (by omega)).symm

theorem self_mem_ancestorsOf (p : FsPath) : p ∈ ancestorsOf p := by
  have h := mem_ancestorsOf_take p p.length
  rwa [List.take_length] at h

theorem dlLoop_mkdir_isDir (dl : String → Option String) (wd : FsPath)
    (ks : List String) (fs : FS) (errs : List (String × String)) (q : FsPath)
    (hq : q ∈ ancestorsOf wd) :
    (dlLoop dl wd ks (fs.mkdirParents wd) errs).1.isDir q = true := by
  unfold FS.isDir
  rw [dlLoop_dirs]
  unfold FS.mkdirParents
  dsimp only
  exact List.elem_eq_true_of_mem (List.mem_append_left _ hq)

/-- C10: the target directory (with all missing parents) is created
before any download is attempted — the trace is exactly the `mkdir`,
then the `chdir`, then one download per named key — and whatever the
outcome, nothing is rolled back: the created directory, every ancestor
of it, and every successfully downloaded file are still present in the
final filesystem state. -/
theorem fetch_creates_dir_first_no_rollback (args : DownloadS3Args)
    (fs : FS) (dl : String → Option String) (kg : String) (i : Nat)
    (hroot : inParents DATA_ROOT (joinResolve DATA_ROOT args.folder) = true)
    (hnof : fs.isFile (joinResolve DATA_ROOT args.folder) = false)
    (hkg : kg ∈ args.files_names_list) (hsucc : dl kg = none) :
    (download_core args fs dl).trace =
      Effect.mkdir (joinResolve DATA_ROOT args.folder) ::
      Effect.chdir (joinResolve DATA_ROOT args.folder) ::
        args.files_names_list.map
          (fun k => Effect.download k
            (joinRel (joinResolve DATA_ROOT args.folder) k)) ∧
    (download_core args fs dl).fs.isDir (joinResolve DATA_ROOT args.folder) = true ∧
    (download_core args fs dl).fs.isDir
      ((joinResolve DATA_ROOT args.folder).take i) = true ∧
    (download_core args fs dl).fs.isFile
      (joinRel (joinResolve DATA_ROOT args.folder) kg) = true := by
  rw [download_core_unfold args fs dl hroot hnof]
  dsimp only
  refine ⟨?_, ?_, ?_, ?_⟩
  · split <;> (try split) <;> simp [dlLoop_trace]
  · split <;> (try split) <;>
      exact dlLoop_mkdir_isDir _ _ _ _ _ _ (self_mem_ancestorsOf _)
  · split <;> (try split) <;>
      exact dlLoop_mkdir_isDir _ _ _ _ _ _ (mem_ancestorsOf_take _ i)
  · split <;> (try split) <;>
      exact dlLoop_success_file _ _ _ _ _ _ hkg hsucc

theorem fetch_creates_dir_first_no_rollback_witness :
    (download_core ⟨"Maize", "C.MZX", ["A.SOL", "B.WTH", "C.MZX"]⟩
        (⟨[], []⟩ : FS)
        (fun k => if k = "B.WTH" then some "NoSuchKey" else none)).trace =
      Effect.mkdir (joinResolve DATA_ROOT "Maize") ::
      Effect.chdir (joinResolve DATA_ROOT "Maize") ::
        ["A.SOL", "B.WTH", "C.MZX"].map
          (fun k => Effect.download k (joinRel (joinResolve DATA_ROOT "Maize") k)) ∧
    (download_core ⟨"Maize", "C.MZX", ["A.SOL", "B.WTH", "C.MZX"]⟩
        (⟨[], []⟩ : FS)
        (fun k => if k = "B.WTH" then some "NoSuchKey" else none)).fs.isDir
      (joinResolve DATA_ROOT "Maize") = true ∧
    (download_core ⟨"Maize", "C.MZX", ["A.SOL", "B.WTH", "C.MZX"]⟩
        (⟨[], []⟩ : FS)
        (fun k => if k = "B.WTH" then some "NoSuchKey" else none)).fs.isDir
      ((joinResolve DATA_ROOT "Maize").take 3) = true ∧
    (download_core ⟨"Maize", "C.MZX", ["A.SOL", "B.WTH", "C.MZX"]⟩
        (⟨[], []⟩ : FS)
        (fun k => if k = "B.WTH" then some "NoSuchKey" else none)).fs.isFile
      (joinRel (joinResolve DATA_ROOT "Maize") "C.MZX") = true :=
  fetch_creates_dir_first_no_rollback ⟨"Maize", "C.MZX", ["A.SOL", "B.WTH", "C.MZX"]⟩
    ⟨[], []⟩ (fun k => if k = "B.WTH" then some "NoSuchKey" else none) "C.MZX" 3
    (by decide) (by decide) (by decide) (by decide)

/-! ## Claims about `upload_and_collect_output_files` and path
confinement -/

/-- The data root together with the `Wheat` project folder, as seen
when the parent tree exists on disk. -/
def fsRootTree : FS := ⟨[DATA_ROOT, wheatDir], [(wheatDir ++ ["X.OUT"], [])]⟩

/-- A filesystem on which `DATA_ROOT`'s own parent directory exists. -/
def fsParentTree : FS :=
  ⟨[DATA_ROOT.dropLast, DATA_ROOT, wheatDir], [(wheatDir ++ ["X.OUT"], [])]⟩

/-- C1 fails on the code: `upload_and_collect_output_files` performs no
path-confinement check whatsoever — `os.chdir` is its only gate.  The
empty folder name resolves to `DATA_ROOT` itself (not a strict
descendant, so the other handlers would reject it), yet the collect
handler archives and recursively deletes the whole data root and
returns 200.  A folder name `".."` escapes the root entirely and the
handler deletes the parent tree.  And `download_files_from_s3` lets a
separator-containing name such as `"a/b"` pass its own guard and
creates the nested directories before failing on a later check. -/
theorem collect_has_no_path_guard :
    (upload_core ⟨""⟩ fsRootTree envOk).result = .ok ⟨200, "https://s3.example/url"⟩ ∧
    inParents DATA_ROOT (joinResolve DATA_ROOT "") = false ∧
    Effect.rmtree DATA_ROOT ∈ (upload_core ⟨""⟩ fsRootTree envOk).trace ∧
    (upload_core ⟨""⟩ fsRootTree envOk).fs.isDir wheatDir = false ∧
    (upload_core ⟨".."⟩ fsParentTree envOk).result =
      .ok ⟨200, "https://s3.example/url"⟩ ∧
    inParents DATA_ROOT (joinResolve DATA_ROOT "..") = false ∧
    Effect.rmtree DATA_ROOT.dropLast ∈ (upload_core ⟨".."⟩ fsParentTree envOk).trace ∧
    (download_core ⟨"a/b", "E.X", []⟩ (⟨[], []⟩ : FS) (fun _ => none)).result =
      .error (.http 400 "Experiment file not found") ∧
    (download_core ⟨"a/b", "E.X", []⟩ (⟨[], []⟩ : FS) (fun _ => none)).fs.isDir
      (DATA_ROOT ++ ["a", "b"]) = true := by
  decide

/-- C7: the deletion of the working directory indeed happens only after
a successful upload (a failed upload leaves the tree untouched and no
`rmtree` in the trace), but because `shutil.rmtree` is invoked with
`ignore_errors=True`, a failed deletion raises nothing: the
surrounding `except OSError` branch is dead code, the handler still
returns 200 with the presigned URL, and the folder silently survives —
contradicting both the claim and the handler's own error-reporting
intent.  When deletion does succeed the folder is gone. -/
theorem collect_deletion_failure_is_silent :
    (upload_core ⟨"Wheat"⟩ fsWheatSummary envUpFail).result =
      .error (.http 500 "Failed to upload ZIP to S3: connection reset") ∧
    (upload_core ⟨"Wheat"⟩ fsWheatSummary envUpFail).fs = fsWheatSummary ∧
    Effect.rmtree wheatDir ∉ (upload_core ⟨"Wheat"⟩ fsWheatSummary envUpFail).trace ∧
    (upload_core ⟨"Wheat"⟩ fsWheatSummary envRmFail).result =
      .ok ⟨200, "https://s3.example/url"⟩ ∧
    (upload_core ⟨"Wheat"⟩ fsWheatSummary envRmFail).fs.isDir wheatDir = true ∧
    (upload_core ⟨"Wheat"⟩ fsWheatSummary envOk).result =
      .ok ⟨200, "https://s3.example/url"⟩ ∧
    (upload_core ⟨"Wheat"⟩ fsWheatSummary envOk).fs.isDir wheatDir = false := by
  decide

/-- C8 fails on the code: when the collect handler's `os.chdir` hits a
missing folder, the 404 error detail is the f-string
`f"{work_dir} not found"` — the fully resolved filesystem path is
returned to the caller inside the error detail string. -/
theorem collect_404_detail_leaks_resolved_path :
    (upload_core ⟨"Wheat"⟩ (⟨[], []⟩ : FS) envOk).result =
      .error (.http 404 (pathToString (joinResolve DATA_ROOT "Wheat") ++
        " not found")) ∧
    pathToString (joinResolve DATA_ROOT "Wheat") =
      "/home/christos/dssat-csm-os/build/bin/Wheat" := by
  decide

/-- C8 (amended): success envelopes never carry the resolved working
directory — a successful fetch returns only the opaque folder name, a
successful collect only the presigned URL, and a successful run only
the process outcome fields and parsed summary; the resolved path does,
however, appear in the `chdir`/`mkdir` failure error details. -/
theorem success_envelopes_opaque
    (dargs : DownloadS3Args) (fs1 : FS) (dl : String → Option String)
    (rd : DownloadS3ArgsResult)
    (h1 : (download_core dargs fs1 dl).result = .ok rd)
    (uargs : UploadCollectOutputArgs) (fs2 : FS) (env : S3Env)
    (ru : UploadCollectOutputArgsResult)
    (h2 : (upload_core uargs fs2 env).result = .ok ru)
    (rargs : RunArgs) (fs3 fsA : FS) (rc : Int) (out err : String)
    (rr : RunResult)
    (h3 : (run_core rargs fs3 (.done rc out err fsA)).result = .ok rr) :
    rd = ⟨200, dargs.folder⟩ ∧
    ru = ⟨200, env.presignUrl⟩ ∧
    rr = ⟨rc, pyTail out 10000, pyTail err 10000,
      _parse_summary fsA (joinResolve DATA_ROOT rargs.folder)⟩ := by
  refine ⟨?_, ?_, ?_⟩
  · unfold download_core at h1
    dsimp only at h1
    repeat' split at h1
    all_goals first
      | exact Except.noConfusion h1
      | exact (Except.ok.inj h1).symm
  · unfold upload_core at h2
    dsimp only at h2
    repeat' split at h2
    all_goals first
      | exact Except.noConfusion h2
      | exact (Except.ok.inj h2).symm
  · unfold run_core at h3
    dsimp only at h3
    repeat' split at h3
    all_goals first
      | exact Except.noConfusion h3
      | exact (Except.ok.inj h3).symm

theorem success_envelopes_opaque_witness :
    (⟨200, "Maize"⟩ : DownloadS3ArgsResult) = ⟨200, "Maize"⟩ ∧
    (⟨200, "https://s3.example/url"⟩ : UploadCollectOutputArgsResult) =
      ⟨200, envOk.presignUrl⟩ ∧
    (⟨0, pyTail "o" 10000, pyTail "e" 10000,
        _parse_summary fsWheatExp (joinResolve DATA_ROOT "Wheat")⟩ : RunResult) =
      ⟨0, pyTail "o" 10000, pyTail "e" 10000,
        _parse_summary fsWheatExp (joinResolve DATA_ROOT "Wheat")⟩ :=
  success_envelopes_opaque
    ⟨"Maize", "C.MZX", ["C.MZX"]⟩ ⟨[], []⟩ (fun _ => none) ⟨200, "Maize"⟩
    (by decide)
    ⟨"Wheat"⟩ fsWheatSummary envOk ⟨200, "https://s3.example/url"⟩ (by decide)
    ⟨"Wheat", "SWSW7501.WHX"⟩ fsWheatExp fsWheatExp 0 "o" "e"
    ⟨0, pyTail "o" 10000, pyTail "e" 10000,
      _parse_summary fsWheatExp (joinResolve DATA_ROOT "Wheat")⟩ (by decide)

/-! ## C9: payload shapes -/

/-- C9: for any well-formed argument object, the flat payload and the
`{"args": ...}`-wrapped payload normalize to the same typed request and
yield identical handler runs (same result, state and effects), for all
three operations; a payload of neither shape is rejected with the 400
invalid-input error before any filesystem work (no effects, filesystem
unchanged). -/
theorem payload_shapes_equivalent (ra : RunArgs) (da : DownloadS3Args)
    (ua : UploadCollectOutputArgs) (fs : FS) (proc : ProcResult)
    (dl : String → Option String) (env : S3Env) (p : Payload)
    (h1 : p.lookup "folder" = none) (h2 : p.lookup "args" = none) :
    run_dssat_experiment (flatRun ra) fs proc =
      run_dssat_experiment (wrapRun ra) fs proc ∧
    download_files_from_s3 (flatDownload da) fs dl =
      download_files_from_s3 (wrapDownload da) fs dl ∧
    upload_and_collect_output_files (flatUpload ua) fs env =
      upload_and_collect_output_files (wrapUpload ua) fs env ∧
    run_dssat_experiment p fs proc =
      ⟨.error (.http 400 "Expected keys: folder & experiment_file"), fs, []⟩ ∧
    download_files_from_s3 p fs dl =
      ⟨.error (.http 400 "Expected keys: folder & experiment_file & files_names_list"),
        fs, []⟩ ∧
    upload_and_collect_output_files p fs env =
      ⟨.error (.http 400 "Expected keys: folder"), fs, []⟩ := by
  refine ⟨rfl, rfl, rfl, ?_, ?_, ?_⟩
  · unfold run_dssat_experiment parseRunPayload
    rw [h1, h2]
    rfl
  · unfold download_files_from_s3 parseDownloadPayload
    rw [h1, h2]
    rfl
  · unfold upload_and_collect_output_files parseUploadPayload
    rw [h1, h2]
    rfl

theorem payload_shapes_equivalent_witness :
    run_dssat_experiment (flatRun ⟨"Wheat", "SWSW7501.WHX"⟩) fsWheatExp
        (.done 0 "" "" fsWheatExp) =
      run_dssat_experiment (wrapRun ⟨"Wheat", "SWSW7501.WHX"⟩) fsWheatExp
        (.done 0 "" "" fsWheatExp) ∧
    download_files_from_s3 (flatDownload ⟨"Maize", "C.MZX", ["C.MZX"]⟩)
        fsWheatExp (fun _ => none) =
      download_files_from_s3 (wrapDownload ⟨"Maize", "C.MZX", ["C.MZX"]⟩)
        fsWheatExp (fun _ => none) ∧
    upload_and_collect_output_files (flatUpload ⟨"Wheat"⟩) fsWheatExp envOk =
      upload_and_collect_output_files (wrapUpload ⟨"Wheat"⟩) fsWheatExp envOk ∧
    run_dssat_experiment [] fsWheatExp (.done 0 "" "" fsWheatExp) =
      ⟨.error (.http 400 "Expected keys: folder & experiment_file"),
        fsWheatExp, []⟩ ∧
    download_files_from_s3 [] fsWheatExp (fun _ => none) =
      ⟨.error (.http 400 "Expected keys: folder & experiment_file & files_names_list"),
        fsWheatExp, []⟩ ∧
    upload_and_collect_output_files [] fsWheatExp envOk =
      ⟨.error (.http 400 "Expected keys: folder"), fsWheatExp, []⟩ :=
  payload_shapes_equivalent ⟨"Wheat", "SWSW7501.WHX"⟩ ⟨"Maize", "C.MZX", ["C.MZX"]⟩
    ⟨"Wheat"⟩ fsWheatExp (.done 0 "" "" fsWheatExp) (fun _ => none) envOk []
    rfl rfl

end DssatMcp
